import Mathlib

/-!
Formal model of the Sentinel display firmware core (`src/main.cpp`):
the sample-history ring buffer, the value-to-pixel mapper, uptime
formatting, the telemetry poller, and the main loop's mode and touch
handling.  Pure C++ helpers become Lean functions; the global mutable
state becomes explicit state records threaded through step functions.
`float` arithmetic on percentages is modelled over the exact rationals,
machine integers over `Nat`/`Int`.  External collaborators (HTTP client,
ArduinoJson parser, LovyanGFX drawing surface, SPIFFS storage) are
modelled through the narrow contracts the core uses: a poll response is
a status code plus the parser's aggregate success-or-failure result, and
drawing calls are recorded as an explicit command list.
-/

/-- Ring-buffer capacity `HIST_SIZE` (main.cpp line 5). -/
def HIST_SIZE : Nat := 120

/-- Constant `LAYOUT_MAX` of the `LayoutType` enum (main.cpp line 20):
`LAYOUT_CHARTS = 0`, `LAYOUT_CLOCK = 1`. -/
def LAYOUT_MAX : Nat := 2

/-- A C `(int)` cast applied to a real value: truncation toward zero. -/
def cTrunc (q : ℚ) : ℤ := if 0 ≤ q then ⌊q⌋ else -⌊-q⌋

/-- Function `mapValueToY` (main.cpp lines 25-29): clamp `pct` into [0,100] by two
sequential `if`s, then `yTop + (int)((100.0f - pct) * (height / 100.0f))`,
with the float arithmetic modelled exactly over `ℚ`. -/
def mapValueToY (pct : ℚ) (yTop height : ℤ) : ℤ :=
  let p1 : ℚ := if pct < 0 then 0 else pct
  let p2 : ℚ := if p1 > 100 then 100 else p1
  yTop + cTrunc ((100 - p2) * ((height : ℚ) / 100))

/-- The uptime string built by `drawUptimeTopRight` (main.cpp lines 86-95):
decompose whole seconds into days/hours/minutes/seconds; prefix `"<days>d "`
only when `days > 0`; pad hours/minutes/seconds to two digits with a
conditional `"0"`. -/
def formatUptime (s0 : Nat) : String :=
  let days := s0 / 86400
  let s1 := s0 % 86400
  let hours := s1 / 3600
  let s2 := s1 % 3600
  let minutes := s2 / 60
  let seconds := s2 % 60
  if days > 0 then
    toString days ++ "d " ++ (if hours < 10 then "0" else "") ++ toString hours ++ ":" ++
      (if minutes < 10 then "0" else "") ++ toString minutes ++ ":" ++
      (if seconds < 10 then "0" else "") ++ toString seconds
  else
    (if hours < 10 then "0" else "") ++ toString hours ++ ":" ++
      (if minutes < 10 then "0" else "") ++ toString minutes ++ ":" ++
      (if seconds < 10 then "0" else "") ++ toString seconds

/-- Spec-side rendering of a counter as two zero-padded digits. -/
def pad2 (n : Nat) : String := if n < 10 then "0" ++ toString n else toString n

/-- One channel (processor or memory) of the shared circular history.
`data` is the fixed 120-entry buffer, `idx` the shared write cursor
`s_hist_idx`, `full` the shared wrap flag `s_hist_full`
(main.cpp lines 5-9). -/
structure HistChan where
  data : List ℚ
  idx : Nat
  full : Bool
deriving DecidableEq

/-- The append performed on one channel by `updateStatsFromServer`
(main.cpp lines 162-166): write at the cursor, advance the cursor modulo
`HIST_SIZE`, and set the wrap flag when the cursor returns to zero. -/
def histAppend (v : ℚ) (h : HistChan) : HistChan :=
  { data := h.data.set h.idx v
    idx := (h.idx + 1) % HIST_SIZE
    full := h.full || ((h.idx + 1) % HIST_SIZE == 0) }

/-- Boot-time history: zero-initialised static buffer, cursor 0, not
wrapped (main.cpp lines 6-9). -/
def hist0 : HistChan :=
  { data := List.replicate HIST_SIZE 0, idx := 0, full := false }

/-- Appending a whole list of samples in order. -/
def appendAll (vs : List ℚ) (h : HistChan) : HistChan :=
  vs.foldl (fun acc v => histAppend v acc) h

/-- The oldest-to-newest window that `drawLineChartArea` reads through
`points = full ? size : idx` and `getVal` (main.cpp lines 47-57): before
the first wrap the first `idx` entries, after a wrap the full window
starting at the cursor. -/
def snapshotChan (h : HistChan) : List ℚ :=
  if h.full then
    (List.range HIST_SIZE).map (fun i => h.data.getD ((h.idx + i) % HIST_SIZE) 0)
  else
    (List.range h.idx).map (fun i => h.data.getD i 0)

/-- The parsed metrics payload read from a 200 response body
(main.cpp lines 159-169): `cpu`, `memory.percentage`, `disk.percentage`,
`uptime.uptime_seconds`, `timestamp`. -/
structure Metrics where
  cpu : ℚ
  memory_percentage : ℚ
  disk_percentage : ℚ
  uptime_seconds : Nat
  timestamp : String
deriving DecidableEq

/-- What the external HTTP client and JSON parser hand back for one poll:
the HTTP status code (`http.GET()`), and for the body the parser's
aggregate result, `none` on any deserialization failure (the parser
contract reports missing or malformed fields as one aggregate failure,
main.cpp lines 155-157). -/
structure PollResponse where
  httpCode : Int
  parsed : Option Metrics
deriving DecidableEq

/-- The poller-owned globals (main.cpp lines 1-17): both history channels
with their shared cursor `s_hist_idx` and wrap flag `s_hist_full`, and the
scalar telemetry (disk percentage, uptime seconds, last ISO timestamp). -/
structure Stats where
  cpu_hist : List ℚ
  ram_hist : List ℚ
  hist_idx : Nat
  hist_full : Bool
  disk_used_pct : ℚ
  uptime_seconds : Nat
  last_timestamp_iso : String
deriving DecidableEq

/-- Poller `updateStatsFromServer` (main.cpp lines 145-176) as a state
transformer.  Result: the new stats, whether a redraw of the active layout
was triggered, and whether an HTTP request was issued at all.  With
incomplete config the function returns before issuing the request; a
non-200 code or a parse failure leaves the state untouched. -/
def updateStatsFromServer (ip port auth : String) (resp : PollResponse)
    (st : Stats) : Stats × Bool × Bool :=
  if ip.length == 0 || port.length == 0 || auth.length == 0 then (st, false, false)
  else if resp.httpCode == 200 then
    match resp.parsed with
    | some m =>
      ({ cpu_hist := st.cpu_hist.set st.hist_idx m.cpu
         ram_hist := st.ram_hist.set st.hist_idx m.memory_percentage
         hist_idx := (st.hist_idx + 1) % HIST_SIZE
         hist_full := st.hist_full || ((st.hist_idx + 1) % HIST_SIZE == 0)
         disk_used_pct := m.disk_percentage
         uptime_seconds := m.uptime_seconds
         last_timestamp_iso := m.timestamp }, true, true)
    | none => (st, false, true)
  else (st, false, true)

/-- The persisted `/config.json` record (main.cpp lines 455-464). -/
structure SavedConfig where
  ssid : String
  password : String
  ip : String
  port : String
  auth : String
deriving DecidableEq

/-- The device-level globals driving the mode state machine
(main.cpp lines 1-22 and 245-253), plus the persisted config record and
the AP/DNS (provisioning) service state. -/
structure Device where
  saved_ssid : String
  saved_password : String
  saved_ip : String
  saved_port : String
  saved_auth : String
  config_complete : Bool
  wifi_connected : Bool
  showing_success : Bool
  success_start : Nat
  stats_active : Bool
  last_stats_update : Nat
  layout : Nat
  touch_down : Bool
  stats : Stats
  persisted : Option SavedConfig
  ap_active : Bool
  dns_active : Bool
deriving DecidableEq

/-- Handler `handleReset` (main.cpp lines 481-508): remove the persisted config,
clear the five saved fields, clear `config_complete` and `wifi_connected`,
restart the AP and the DNS responder (the Provisioning services), redraw
the boot image.  Note the polling flag `s_stats_active` is left untouched
by the source. -/
def handleReset (d : Device) : Device :=
  { d with persisted := none
           saved_ssid := ""
           saved_password := ""
           saved_ip := ""
           saved_port := ""
           saved_auth := ""
           config_complete := false
           wifi_connected := false
           ap_active := true
           dns_active := true }

/-- The polling-cadence branch of `loop()` (main.cpp lines 782-785): when
stats are active and 2000 ms have elapsed, stamp the time and run
`updateStatsFromServer`.  Result: the new device state and whether an HTTP
request was issued. -/
def cadenceTick (now : Nat) (resp : PollResponse) (d : Device) : Device × Bool :=
  if d.stats_active = true ∧ 2000 ≤ now - d.last_stats_update then
    let u := updateStatsFromServer d.saved_ip d.saved_port d.saved_auth resp d.stats
    ({ d with last_stats_update := now, stats := u.1 }, u.2.2)
  else (d, false)

/-- The state effect of `displayWiFiSuccess` (main.cpp lines 691-749):
drawing aside, it records the transition timer start and raises
`s_showing_success`. -/
def displayWiFiSuccess (now : Nat) (d : Device) : Device :=
  { d with success_start := now, showing_success := true }

/-- Pairing check `pairWithSentinelServer` (main.cpp lines 197-218): false on missing
config, else success exactly on HTTP 200. -/
def pairWithSentinelServer (ip port auth : String) (code : Int) : Bool :=
  if ip.length == 0 || port.length == 0 || auth.length == 0 then false
  else code == 200

/-- The device-state effect of the pairing attempt at the end of
`connectToWiFi` (main.cpp line 678): the boolean returned by
`pairWithSentinelServer` is discarded there, and `displayPairingResult`
(lines 177-195) only draws to the LCD, so the modelled state is unchanged
whichever the outcome. -/
def pairEffect (_outcome : Bool) (d : Device) : Device := d

/-- Transition `displayMainScreen` (main.cpp lines 751-759): select the charts
layout, activate stats polling, back-date the cadence stamp by one full
interval and poll immediately.  Result: new state and whether the
immediate poll issued a request. -/
def displayMainScreen (now : Nat) (resp : PollResponse) (d : Device) :
    Device × Bool :=
  let d1 := { d with layout := 0
                     stats_active := true
                     last_stats_update := now - 2000 }
  let u := updateStatsFromServer d1.saved_ip d1.saved_port d1.saved_auth resp d1.stats
  ({ d1 with stats := u.1 }, u.2.2)

/-- The success-to-main transition check at the top of `loop()`
(main.cpp lines 763-767): after 1500 ms of the success screen, drop the
flag and enter the main (Monitoring) screen. -/
def loopSuccessCheck (now : Nat) (resp : PollResponse) (d : Device) :
    Device × Bool :=
  if d.showing_success = true ∧ 1500 ≤ now - d.success_start then
    displayMainScreen now resp { d with showing_success := false }
  else (d, false)

/-- The touch branch of `loop()` (main.cpp lines 769-779): `pressed` is
the externally reported touch state; a press edge toggles the layout and
latches `s_touch_down`, a release clears the latch. -/
def touchStep (pressed : Bool) (d : Device) : Device :=
  if pressed then
    if d.touch_down = false then
      { d with touch_down := true, layout := (d.layout + 1) % LAYOUT_MAX }
    else d
  else { d with touch_down := false }

/-- The drawing-surface calls the renderer can make (the LovyanGFX subset
used by `drawLineChartArea`), recorded as data. -/
inductive DrawCmd where
  | fillRect (x y w h : ℤ) (color : Nat)
  | drawRect (x y w h : ℤ) (color : Nat)
  | text (x y : ℤ) (s : String)
  | fastHLine (x y w : ℤ) (color : Nat)
  | pixel (x y : ℤ) (color : Nat)
  | line (x0 y0 x1 y1 : ℤ) (color : Nat)
deriving DecidableEq

/-- Renderer `drawLineChartArea` (main.cpp lines 31-70) as the list of draw
commands it issues: clear, border, title, the three grid lines at
25/50/75 %, then - only when more than one point is visible - the first
data pixel, the connecting segments, and the current-value label. -/
def drawLineChartArea (x y w h : ℤ) (data : List ℚ) (size idx : Nat)
    (full : Bool) (color : Nat) (title : String) : List DrawCmd :=
  let base : List DrawCmd :=
    [DrawCmd.fillRect x y w h 0xFFFF, DrawCmd.drawRect x y w h 0x0000,
     DrawCmd.text (x + 4) (y + 2) title] ++
    ([25, 50, 75].map (fun p =>
      DrawCmd.fastHLine (x + 1) (mapValueToY p (y + 15) (h - 20)) (w - 2) 0xBDF7))
  let plotY := y + 15
  let plotH := h - 20
  let plotX := x + 2
  let plotW := w - 4
  let points := if full then size else idx
  if points ≤ 1 then base
  else
    let getVal : Nat → ℚ := fun i =>
      if full then data.getD ((idx + i) % size) 0 else data.getD i 0
    let pxOf : Nat → ℤ := fun i =>
      if i = 0 then plotX else plotX + Int.tdiv ((i : ℤ) * plotW) ((size : ℤ) - 1)
    let pyOf : Nat → ℤ := fun i => mapValueToY (getVal i) plotY plotH
    base ++ [DrawCmd.pixel plotX (pyOf 0) color] ++
      ((List.range (points - 1)).map (fun j =>
        DrawCmd.line (pxOf j) (pyOf j) (pxOf (j + 1)) (pyOf (j + 1)) color)) ++
      [DrawCmd.text (x + w - 40) (y + 2) (toString (getVal (points - 1)))]

/-- Sample metrics payload used in concrete witnesses. -/
def sampleMetrics : Metrics :=
  { cpu := 12, memory_percentage := 34, disk_percentage := 56,
    uptime_seconds := 3661, timestamp := "2024-01-01T01:01:01Z" }

/-- Boot-time stats state (zeroed buffers, cursor 0). -/
def stats0 : Stats :=
  { cpu_hist := List.replicate HIST_SIZE 0, ram_hist := List.replicate HIST_SIZE 0,
    hist_idx := 0, hist_full := false, disk_used_pct := 0, uptime_seconds := 0,
    last_timestamp_iso := "" }

/-- A concrete fully configured monitoring-state device used in witnesses. -/
def sampleDevice : Device :=
  { saved_ssid := "home", saved_password := "pw", saved_ip := "192.168.1.2",
    saved_port := "8080", saved_auth := "secret", config_complete := true,
    wifi_connected := true, showing_success := false, success_start := 0,
    stats_active := true, last_stats_update := 0, layout := 0,
    touch_down := false, stats := stats0,
    persisted := some { ssid := "home", password := "pw", ip := "192.168.1.2",
                        port := "8080", auth := "secret" },
    ap_active := false, dns_active := false }

theorem strAppend_assoc (a b c : String) : a ++ b ++ c = a ++ (b ++ c) :=
  String.ext (by simp [String.data_append, List.append_assoc])

theorem pad2_length : ∀ m : Fin 100, (pad2 m.val).length = 2 := by decide

theorem cTrunc_eq_floor (q : ℚ) (h : 0 ≤ q) : cTrunc q = ⌊q⌋ := by
  simp [cTrunc, h]

/-- C2: for every percentage `p`, top pixel `t` and positive height `h`,
`mapValueToY` returns `t + h` when `p ≤ 0`, returns exactly `t` when
`p ≥ 100`, and is monotonically non-increasing in the percentage on
[0,100]. -/
theorem mapValueToY_endpoints_mono (p q : ℚ) (t h : ℤ) (hh : 0 < h) :
    (p ≤ 0 → mapValueToY p t h = t + h) ∧
    (100 ≤ p → mapValueToY p t h = t) ∧
    (0 ≤ p → p ≤ q → q ≤ 100 → mapValueToY q t h ≤ mapValueToY p t h) := by
  refine ⟨?_, ?_, ?_⟩
  · intro hp
    have hclamp : (if ((if p < 0 then (0:ℚ) else p)) > 100 then (100:ℚ)
        else (if p < 0 then (0:ℚ) else p)) = 0 := by
      rcases lt_or_le p 0 with h0 | h0
      · simp [h0]
      · have : p = 0 := le_antisymm hp h0
        simp [this]
    simp only [mapValueToY, hclamp]
    have hexpr : ((100:ℚ) - 0) * ((h : ℚ) / 100) = (h : ℚ) := by ring
    rw [hexpr, cTrunc_eq_floor _ (by exact_mod_cast hh.le), Int.floor_intCast]
  · intro hp
    have hn : ¬ p < 0 := not_lt.mpr (le_trans (by norm_num) hp)
    rcases lt_or_le (100:ℚ) p with h0 | h0
    · have hclamp : (if ((if p < 0 then (0:ℚ) else p)) > 100 then (100:ℚ)
          else (if p < 0 then (0:ℚ) else p)) = 100 := by simp [hn, h0]
      simp only [mapValueToY, hclamp]
      norm_num [cTrunc]
    · have hp100 : p = 100 := le_antisymm h0 hp
      have hclamp : (if ((if p < 0 then (0:ℚ) else p)) > 100 then (100:ℚ)
          else (if p < 0 then (0:ℚ) else p)) = 100 := by simp [hn, hp100]
      simp only [mapValueToY, hclamp]
      norm_num [cTrunc]
  · intro hp0 hpq hq100
    have hq0 : (0:ℚ) ≤ q := le_trans hp0 hpq
    have hp100 : p ≤ 100 := le_trans hpq hq100
    have hcp : (if ((if p < 0 then (0:ℚ) else p)) > 100 then (100:ℚ)
        else (if p < 0 then (0:ℚ) else p)) = p := by
      simp [not_lt.mpr hp0, not_lt.mpr hp100]
    have hcq : (if ((if q < 0 then (0:ℚ) else q)) > 100 then (100:ℚ)
        else (if q < 0 then (0:ℚ) else q)) = q := by
      simp [not_lt.mpr hq0, not_lt.mpr hq100]
    simp only [mapValueToY, hcp, hcq]
    have hh' : (0:ℚ) ≤ (h : ℚ) / 100 := by positivity
    have h1 : (0:ℚ) ≤ (100 - q) * ((h : ℚ) / 100) :=
      mul_nonneg (by linarith) hh'
    have h2 : (0:ℚ) ≤ (100 - p) * ((h : ℚ) / 100) :=
      mul_nonneg (by linarith) hh'
    rw [cTrunc_eq_floor _ h1, cTrunc_eq_floor _ h2]
    have : (100 - q) * ((h : ℚ) / 100) ≤ (100 - p) * ((h : ℚ) / 100) :=
      mul_le_mul_of_nonneg_right (by linarith) hh'
    exact add_le_add_left (Int.floor_le_floor this) t

/-- Witness for C2 at `p = 0`, `q = 50`, `t = 10`, `h = 40`. -/
theorem mapValueToY_endpoints_mono_witness :
    mapValueToY 0 10 40 = 10 + 40 ∧ mapValueToY 100 10 40 = 10 ∧
      mapValueToY 50 10 40 ≤ mapValueToY 0 10 40 := by
  have h := mapValueToY_endpoints_mono 0 50 10 40 (by norm_num)
  exact ⟨h.1 le_rfl, (mapValueToY_endpoints_mono 100 100 10 40 (by norm_num)).2.1 le_rfl,
    h.2.2 le_rfl (by norm_num) (by norm_num)⟩

theorem pad2_hm (k : Nat) : (if k < 10 then "0" else "") ++ toString k = pad2 k := by
  by_cases h : k < 10
  · simp [pad2, h]
  · simp only [pad2, h, if_neg, if_false]
    exact String.ext (by simp [String.data_append])

/-- C6: `formatUptime` decomposes whole seconds into days/hours/minutes/
seconds, omits the days field when zero and otherwise prefixes `"<days>d "`,
always renders hours/minutes/seconds as two zero-padded digits, and maps
0 to `"00:00:00"`, 3661 to `"01:01:01"`, 90000 to `"1d 01:00:00"`. -/
theorem formatUptime_ok (n : Nat) :
    formatUptime n =
      (if n / 86400 = 0 then "" else toString (n / 86400) ++ "d ")
        ++ pad2 (n % 86400 / 3600) ++ ":" ++ pad2 (n % 86400 % 3600 / 60)
        ++ ":" ++ pad2 (n % 86400 % 3600 % 60) ∧
    (pad2 (n % 86400 / 3600)).length = 2 ∧
    (pad2 (n % 86400 % 3600 / 60)).length = 2 ∧
    (pad2 (n % 86400 % 3600 % 60)).length = 2 ∧
    formatUptime 0 = "00:00:00" ∧
    formatUptime 3661 = "01:01:01" ∧
    formatUptime 90000 = "1d 01:00:00" := by
  refine ⟨?_, ?_, ?_, ?_, by decide, by decide, by decide⟩
  · rcases Nat.eq_zero_or_pos (n / 86400) with hd | hd
    · simp only [formatUptime, hd, gt_iff_lt, Nat.lt_irrefl, if_false, if_true,
        ← pad2_hm]
      exact String.ext (by simp [String.data_append, List.append_assoc])
    · have hd' : ¬ (n / 86400 = 0) := Nat.pos_iff_ne_zero.mp hd
      simp only [formatUptime, gt_iff_lt, hd, if_true, hd', if_false, ← pad2_hm]
      exact String.ext (by simp [String.data_append, List.append_assoc])
  · have h1 : n % 86400 / 3600 < 100 := by omega
    exact pad2_length ⟨_, h1⟩
  · have h1 : n % 86400 % 3600 / 60 < 100 := by omega
    exact pad2_length ⟨_, h1⟩
  · have h1 : n % 86400 % 3600 % 60 < 100 := by omega
    exact pad2_length ⟨_, h1⟩

theorem appendAll_concat (vs : List ℚ) (v : ℚ) (h : HistChan) :
    appendAll (vs ++ [v]) h = histAppend v (appendAll vs h) := by
  simp [appendAll, List.foldl_append]

theorem beq_mod (n : Nat) (h : n < HIST_SIZE) :
    ((n + 1) % HIST_SIZE == 0) = (n + 1 == HIST_SIZE) := by
  rw [Bool.eq_iff_iff]
  simp only [beq_iff_eq, HIST_SIZE] at *
  omega

theorem range_map_getD (l : List ℚ) (n : Nat) (hn : n ≤ l.length) :
    (List.range n).map (fun i => l.getD i 0) = l.take n := by
  apply List.ext_getElem
  · simp [Nat.min_eq_left hn]
  · intro i h1 h2
    have hi : i < n := by simpa using h1
    have hil : i < l.length := lt_of_lt_of_le hi hn
    simp only [List.getElem_map, List.getElem_range, List.getElem_take]
    exact List.getD_eq_getElem l 0 hil

theorem appendAll_le_capacity (vs : List ℚ) (hle : vs.length ≤ HIST_SIZE) :
    appendAll vs hist0 =
      { data := vs ++ List.replicate (HIST_SIZE - vs.length) 0
        idx := vs.length % HIST_SIZE
        full := vs.length == HIST_SIZE } := by
  induction vs using List.reverseRecOn with
  | nil => rfl
  | append_singleton vs v ih =>
    have hlen : vs.length < HIST_SIZE := by
      simp only [List.length_append, List.length_cons, List.length_nil] at hle
      omega
    rw [appendAll_concat, ih (le_of_lt hlen)]
    simp only [histAppend, HistChan.mk.injEq]
    refine ⟨?_, ?_, ?_⟩
    · rw [Nat.mod_eq_of_lt hlen, List.set_append_right _ _ (le_refl vs.length),
        Nat.sub_self,
        show HIST_SIZE - vs.length = (HIST_SIZE - vs.length - 1) + 1 from by omega,
        List.replicate_succ, List.set_cons_zero, List.append_cons]
      have hcnt : HIST_SIZE - vs.length - 1 = HIST_SIZE - (vs ++ [v]).length := by
        simp only [List.length_append, List.length_cons, List.length_nil]
        omega
      rw [hcnt]
    · rw [Nat.mod_eq_of_lt hlen]
      simp only [List.length_append, List.length_cons, List.length_nil]
    · rw [Nat.mod_eq_of_lt hlen]
      have h0 : (vs.length == HIST_SIZE) = false := by
        simp only [beq_eq_false_iff_ne]; omega
      rw [h0, Bool.false_or, beq_mod _ hlen]
      simp only [List.length_append, List.length_cons, List.length_nil]

theorem snapshot_not_full (vs : List ℚ) (h : vs.length < HIST_SIZE) :
    (appendAll vs hist0).full = false ∧ snapshotChan (appendAll vs hist0) = vs := by
  rw [appendAll_le_capacity vs h.le]
  have hfull : (vs.length == HIST_SIZE) = false := by
    simp only [beq_eq_false_iff_ne]; omega
  refine ⟨hfull, ?_⟩
  simp only [snapshotChan, hfull, Bool.false_eq_true, if_false]
  rw [Nat.mod_eq_of_lt h,
    range_map_getD _ _ (by simp only [List.length_append, List.length_replicate]; omega)]
  exact List.take_left vs _

theorem snapshot_exact_full (vs : List ℚ) (h : vs.length = HIST_SIZE) :
    (appendAll vs hist0).full = true ∧ snapshotChan (appendAll vs hist0) = vs := by
  rw [appendAll_le_capacity vs h.le]
  have hfull : (vs.length == HIST_SIZE) = true := by
    simp only [beq_iff_eq]; omega
  refine ⟨hfull, ?_⟩
  simp only [snapshotChan, hfull, if_true, h, Nat.mod_self, Nat.sub_self,
    List.replicate_zero, List.append_nil]
  have hcong : ∀ i ∈ List.range HIST_SIZE,
      vs.getD ((0 + i) % HIST_SIZE) 0 = vs.getD i 0 := by
    intro i hi
    rw [List.mem_range] at hi
    rw [Nat.zero_add, Nat.mod_eq_of_lt hi]
  rw [List.map_congr_left hcong, range_map_getD _ _ (le_of_eq h.symm), ← h,
    List.take_length]
  simp

theorem appendAll_inv (vs : List ℚ) :
    (appendAll vs hist0).data.length = HIST_SIZE ∧ (appendAll vs hist0).idx < HIST_SIZE := by
  induction vs using List.reverseRecOn with
  | nil => exact ⟨List.length_replicate .., by simp [appendAll, hist0, HIST_SIZE]⟩
  | append_singleton vs v ih =>
    rw [appendAll_concat]
    refine ⟨?_, ?_⟩
    · simp only [histAppend, List.length_set]
      exact ih.1
    · exact Nat.mod_lt _ (by simp [HIST_SIZE])

theorem snapshot_step_full (v : ℚ) (st : HistChan) (hf : st.full = true)
    (hl : st.data.length = HIST_SIZE) (hi : st.idx < HIST_SIZE) :
    snapshotChan (histAppend v st) = (snapshotChan st).drop 1 ++ [v] := by
  have hfull' : (histAppend v st).full = true := by simp [histAppend, hf]
  simp only [snapshotChan, hfull', hf, if_true, histAppend, Bool.true_or]
  apply List.ext_getElem
  · simp [HIST_SIZE]
  · intro i h1 h2
    have hi120 : i < HIST_SIZE := by simpa using h1
    simp only [List.getElem_map, List.getElem_range]
    by_cases hlast : i < HIST_SIZE - 1
    · rw [List.getElem_append_left (by
        simp only [List.length_drop, List.length_map, List.length_range]
        omega)]
      rw [List.getElem_drop]
      simp only [List.getElem_map, List.getElem_range]
      have hidx : ((st.idx + 1) % HIST_SIZE + i) % HIST_SIZE
          = (st.idx + (1 + i)) % HIST_SIZE := by
        simp only [HIST_SIZE]
        omega
      rw [hidx]
      have hlt : (st.idx + (1 + i)) % HIST_SIZE < st.data.length := by
        rw [hl]
        exact Nat.mod_lt _ (by simp [HIST_SIZE])
      have hne : st.idx ≠ (st.idx + (1 + i)) % HIST_SIZE := by
        simp only [HIST_SIZE] at hi hi120 hlast ⊢
        omega
      rw [List.getD_eq_getElem _ _ (by simpa using hlt),
        List.getD_eq_getElem _ _ hlt]
      exact List.getElem_set_ne hne _
    · have hieq : i = HIST_SIZE - 1 := by omega
      subst hieq
      rw [List.getElem_append_right (by
        simp only [List.length_drop, List.length_map, List.length_range]
        omega)]
      have hidx : ((st.idx + 1) % HIST_SIZE + (HIST_SIZE - 1)) % HIST_SIZE = st.idx := by
        simp only [HIST_SIZE] at hi ⊢
        omega
      rw [hidx]
      have hltset : st.idx < (st.data.set st.idx v).length := by
        rw [List.length_set, hl]; exact hi
      rw [List.getD_eq_getElem _ _ hltset, List.getElem_set_self hltset]
      simp

theorem snapshot_ge (vs : List ℚ) (h : HIST_SIZE ≤ vs.length) :
    (appendAll vs hist0).full = true ∧
      snapshotChan (appendAll vs hist0) = vs.drop (vs.length - HIST_SIZE) := by
  induction vs using List.reverseRecOn with
  | nil => simp [HIST_SIZE] at h
  | append_singleton vs v ih =>
    rcases Nat.lt_or_ge vs.length HIST_SIZE with hlt | hge
    · have heq : (vs ++ [v]).length = HIST_SIZE := by
        simp only [List.length_append, List.length_cons, List.length_nil] at h ⊢
        omega
      obtain ⟨h1, h2⟩ := snapshot_exact_full (vs ++ [v]) heq
      refine ⟨h1, ?_⟩
      rw [h2, heq, Nat.sub_self, List.drop_zero]
    · obtain ⟨ihfull, ihsnap⟩ := ih hge
      obtain ⟨invlen, invidx⟩ := appendAll_inv vs
      rw [appendAll_concat]
      refine ⟨by simp [histAppend, ihfull], ?_⟩
      rw [snapshot_step_full v _ ihfull invlen invidx, ihsnap, List.drop_drop,
        show (vs ++ [v]).length - HIST_SIZE = vs.length + 1 - HIST_SIZE from by
          simp only [List.length_append, List.length_cons, List.length_nil],
        List.drop_append_of_le_length (by omega : vs.length + 1 - HIST_SIZE ≤ vs.length),
        show vs.length - HIST_SIZE + 1 = vs.length + 1 - HIST_SIZE from by omega]

/-- C4: with capacity `HIST_SIZE = 120`, after exactly 120 appends the wrap
flag is set and the snapshot has length 120 and equals the appended values;
after `k < 120` appends the snapshot is exactly the `k` appended values in
insertion order; once wrapped, the cursor-based window read by
`drawLineChartArea` lists the most recent 120 values oldest-to-newest
(window from the cursor around to cursor - 1). -/
theorem history_capacity_snapshot (vs : List ℚ) :
    (vs.length = HIST_SIZE →
      (appendAll vs hist0).full = true ∧
        (snapshotChan (appendAll vs hist0)).length = HIST_SIZE ∧
        snapshotChan (appendAll vs hist0) = vs) ∧
    (vs.length < HIST_SIZE →
      (appendAll vs hist0).full = false ∧
        (snapshotChan (appendAll vs hist0)).length = vs.length ∧
        snapshotChan (appendAll vs hist0) = vs) ∧
    (HIST_SIZE ≤ vs.length →
      snapshotChan (appendAll vs hist0) = vs.drop (vs.length - HIST_SIZE)) := by
  refine ⟨?_, ?_, ?_⟩
  · intro h
    obtain ⟨h1, h2⟩ := snapshot_exact_full vs h
    exact ⟨h1, by rw [h2, h], h2⟩
  · intro h
    obtain ⟨h1, h2⟩ := snapshot_not_full vs h
    exact ⟨h1, by rw [h2], h2⟩
  · intro h
    exact (snapshot_ge vs h).2

/-- Witness for C4: three appends below capacity are snapshotted in
insertion order. -/
theorem history_capacity_snapshot_witness :
    (appendAll [1, 2, 3] hist0).full = false ∧
      (snapshotChan (appendAll [1, 2, 3] hist0)).length = [1, 2, 3].length ∧
      snapshotChan (appendAll [1, 2, 3] hist0) = [1, 2, 3] :=
  (history_capacity_snapshot [1, 2, 3]).2.1 (by decide)

/-- C1: a poll whose 200 response body fails the aggregate parse (missing
expected field such as memory, or malformed JSON) is discarded wholesale:
the history buffers, the cursor, the wrap flag and all scalar telemetry
are unchanged, and no redraw is triggered - the update is atomic
all-or-nothing. -/
theorem poll_parse_failure_noop (ip port auth : String) (code : Int)
    (st : Stats) :
    (updateStatsFromServer ip port auth ⟨code, none⟩ st).1 = st ∧
    (updateStatsFromServer ip port auth ⟨code, none⟩ st).2.1 = false := by
  simp only [updateStatsFromServer]
  by_cases h1 : (ip.length == 0 || port.length == 0 || auth.length == 0) = true
  · simp [h1]
  · by_cases h2 : (code == 200) = true <;>
      simp [h1, h2]

/-- C3: when any of the paired-server host, port or credential is empty,
a poll is a complete no-op: no request is issued, no redraw happens, and
the history and scalar telemetry are returned unchanged. -/
theorem poll_missing_config_noop (ip port auth : String)
    (resp : PollResponse) (st : Stats)
    (h : ip = "" ∨ port = "" ∨ auth = "") :
    updateStatsFromServer ip port auth resp st = (st, false, false) := by
  have hb : (ip.length == 0 || port.length == 0 || auth.length == 0) = true := by
    rcases h with h | h | h <;> subst h <;> simp
  simp [updateStatsFromServer, hb]

/-- Witness for C3 with an empty host. -/
theorem poll_missing_config_noop_witness :
    updateStatsFromServer "" "8080" "secret" ⟨200, some sampleMetrics⟩ stats0
      = (stats0, false, false) :=
  poll_missing_config_noop "" "8080" "secret" ⟨200, some sampleMetrics⟩ stats0
    (Or.inl rfl)

/-- C5: the two history channels advance in lock-step.  Every poll either
writes one sample into both channels at the shared cursor and advances
that single cursor once (modulo capacity), or mutates neither channel nor
the cursor; the cursor stays in `[0, HIST_SIZE)` and both channels always
expose windows of the same logical length. -/
theorem poll_lockstep (ip port auth : String) (resp : PollResponse)
    (st : Stats) (h : st.hist_idx < HIST_SIZE) :
    ((∃ c r, (updateStatsFromServer ip port auth resp st).1.cpu_hist
          = st.cpu_hist.set st.hist_idx c ∧
        (updateStatsFromServer ip port auth resp st).1.ram_hist
          = st.ram_hist.set st.hist_idx r ∧
        (updateStatsFromServer ip port auth resp st).1.hist_idx
          = (st.hist_idx + 1) % HIST_SIZE) ∨
      ((updateStatsFromServer ip port auth resp st).1.cpu_hist = st.cpu_hist ∧
        (updateStatsFromServer ip port auth resp st).1.ram_hist = st.ram_hist ∧
        (updateStatsFromServer ip port auth resp st).1.hist_idx = st.hist_idx)) ∧
    (updateStatsFromServer ip port auth resp st).1.hist_idx < HIST_SIZE ∧
    (snapshotChan ⟨(updateStatsFromServer ip port auth resp st).1.cpu_hist,
        (updateStatsFromServer ip port auth resp st).1.hist_idx,
        (updateStatsFromServer ip port auth resp st).1.hist_full⟩).length =
      (snapshotChan ⟨(updateStatsFromServer ip port auth resp st).1.ram_hist,
        (updateStatsFromServer ip port auth resp st).1.hist_idx,
        (updateStatsFromServer ip port auth resp st).1.hist_full⟩).length := by
  refine ⟨?_, ?_, ?_⟩
  · simp only [updateStatsFromServer]
    by_cases h1 : (ip.length == 0 || port.length == 0 || auth.length == 0) = true
    · simp [h1]
    · by_cases h2 : (resp.httpCode == 200) = true
      · rcases hp : resp.parsed with _ | m
        · simp [h1, h2, hp]
        · refine Or.inl ⟨m.cpu, m.memory_percentage, ?_⟩
          simp [h1, h2, hp]
      · simp [h1, h2]
  · simp only [updateStatsFromServer]
    by_cases h1 : (ip.length == 0 || port.length == 0 || auth.length == 0) = true
    · simpa [h1] using h
    · by_cases h2 : (resp.httpCode == 200) = true
      · rcases hp : resp.parsed with _ | m
        · simpa [h1, h2, hp] using h
        · simp only [h1, h2, hp]
          simp [Nat.mod_lt _ (by simp [HIST_SIZE] : 0 < HIST_SIZE)]
      · simpa [h1, h2] using h
  · rcases hf : (updateStatsFromServer ip port auth resp st).1.hist_full with _ | _ <;>
      simp [snapshotChan]

/-- Witness for C5 at a concrete configured poll with a parse success. -/
theorem poll_lockstep_witness :
    ((∃ c r, (updateStatsFromServer "192.168.1.2" "8080" "secret"
          ⟨200, some sampleMetrics⟩ stats0).1.cpu_hist
          = stats0.cpu_hist.set stats0.hist_idx c ∧
        (updateStatsFromServer "192.168.1.2" "8080" "secret"
          ⟨200, some sampleMetrics⟩ stats0).1.ram_hist
          = stats0.ram_hist.set stats0.hist_idx r ∧
        (updateStatsFromServer "192.168.1.2" "8080" "secret"
          ⟨200, some sampleMetrics⟩ stats0).1.hist_idx
          = (stats0.hist_idx + 1) % HIST_SIZE) ∨
      ((updateStatsFromServer "192.168.1.2" "8080" "secret"
          ⟨200, some sampleMetrics⟩ stats0).1.cpu_hist = stats0.cpu_hist ∧
        (updateStatsFromServer "192.168.1.2" "8080" "secret"
          ⟨200, some sampleMetrics⟩ stats0).1.ram_hist = stats0.ram_hist ∧
        (updateStatsFromServer "192.168.1.2" "8080" "secret"
          ⟨200, some sampleMetrics⟩ stats0).1.hist_idx = stats0.hist_idx)) ∧
    (updateStatsFromServer "192.168.1.2" "8080" "secret"
      ⟨200, some sampleMetrics⟩ stats0).1.hist_idx < HIST_SIZE ∧
    (snapshotChan ⟨(updateStatsFromServer "192.168.1.2" "8080" "secret"
        ⟨200, some sampleMetrics⟩ stats0).1.cpu_hist,
        (updateStatsFromServer "192.168.1.2" "8080" "secret"
          ⟨200, some sampleMetrics⟩ stats0).1.hist_idx,
        (updateStatsFromServer "192.168.1.2" "8080" "secret"
          ⟨200, some sampleMetrics⟩ stats0).1.hist_full⟩).length =
      (snapshotChan ⟨(updateStatsFromServer "192.168.1.2" "8080" "secret"
        ⟨200, some sampleMetrics⟩ stats0).1.ram_hist,
        (updateStatsFromServer "192.168.1.2" "8080" "secret"
          ⟨200, some sampleMetrics⟩ stats0).1.hist_idx,
        (updateStatsFromServer "192.168.1.2" "8080" "secret"
          ⟨200, some sampleMetrics⟩ stats0).1.hist_full⟩).length :=
  poll_lockstep "192.168.1.2" "8080" "secret" ⟨200, some sampleMetrics⟩ stats0
    (by decide)

theorem cadenceTick_empty_config (s : Device) (hs : s.saved_ip = "")
    (now : Nat) (resp : PollResponse) :
    (cadenceTick now resp s).1.stats = s.stats ∧
    (cadenceTick now resp s).1.saved_ip = "" ∧
    (cadenceTick now resp s).2 = false := by
  have hb : (s.saved_ip.length == 0 || s.saved_port.length == 0
      || s.saved_auth.length == 0) = true := by
    rw [hs]; simp
  simp only [cadenceTick]
  by_cases hc : s.stats_active = true ∧ 2000 ≤ now - s.last_stats_update
  · rw [if_pos hc]
    simp [updateStatsFromServer, hb, hs]
  · rw [if_neg hc]
    exact ⟨rfl, hs, rfl⟩

theorem foldTicks_empty_config (ticks : List (Nat × PollResponse))
    (s : Device) (hs : s.saved_ip = "") :
    (ticks.foldl (fun a p => (cadenceTick p.1 p.2 a).1) s).stats = s.stats ∧
    (ticks.foldl (fun a p => (cadenceTick p.1 p.2 a).1) s).saved_ip = "" := by
  induction ticks generalizing s with
  | nil => exact ⟨rfl, hs⟩
  | cons t ts ih =>
    simp only [List.foldl_cons]
    obtain ⟨h1, h2, _⟩ := cadenceTick_empty_config s hs t.1 t.2
    obtain ⟨ih1, ih2⟩ := ih _ h2
    exact ⟨ih1.trans h1, ih2⟩

/-- C7: a configuration-reset event clears all stored network and pairing
configuration, in memory and in persistent storage, returns the device to
Provisioning (AP and DNS captive-portal services restarted, connection
flags cleared), and renders polling inert: after the reset, any sequence
of subsequent cadence ticks leaves the Sample History and ScalarTelemetry
unchanged and never issues a request (each tick's poll bails out on the
now-empty config before doing anything). -/
theorem reset_provisioning_polling_inert (d : Device)
    (ticks : List (Nat × PollResponse)) :
    (handleReset d).saved_ssid = "" ∧
    (handleReset d).saved_password = "" ∧
    (handleReset d).saved_ip = "" ∧
    (handleReset d).saved_port = "" ∧
    (handleReset d).saved_auth = "" ∧
    (handleReset d).persisted = none ∧
    (handleReset d).config_complete = false ∧
    (handleReset d).wifi_connected = false ∧
    (handleReset d).ap_active = true ∧
    (handleReset d).dns_active = true ∧
    (ticks.foldl (fun a p => (cadenceTick p.1 p.2 a).1) (handleReset d)).stats
      = d.stats ∧
    (∀ now resp,
      (cadenceTick now resp
        (ticks.foldl (fun a p => (cadenceTick p.1 p.2 a).1) (handleReset d))).2
        = false) := by
  obtain ⟨h1, h2⟩ := foldTicks_empty_config ticks (handleReset d) rfl
  refine ⟨rfl, rfl, rfl, rfl, rfl, rfl, rfl, rfl, rfl, rfl, h1, ?_⟩
  intro now resp
  exact (cadenceTick_empty_config _ h2 now resp).2.2

/-- C8: entering the success/pairing display at time `now0` and then
running the loop transition check at any time `now ≥ now0 + 1500`, the
machine leaves the success screen and enters Monitoring (stats polling
active, charts layout selected) regardless of the one-shot pairing
outcome, whose boolean is discarded without touching state; and the entry
itself performs the first poll at once - with a complete config the
request is issued during the transition, not after a 2-second cadence
interval. -/
theorem pairing_to_monitoring (d : Device) (now0 now : Nat)
    (resp : PollResponse) (pairOutcome : Bool)
    (h : 1500 ≤ now - now0) :
    pairEffect pairOutcome (displayWiFiSuccess now0 d)
      = pairEffect true (displayWiFiSuccess now0 d) ∧
    (loopSuccessCheck now resp
        (pairEffect pairOutcome (displayWiFiSuccess now0 d))).1.showing_success
      = false ∧
    (loopSuccessCheck now resp
        (pairEffect pairOutcome (displayWiFiSuccess now0 d))).1.stats_active
      = true ∧
    (loopSuccessCheck now resp
        (pairEffect pairOutcome (displayWiFiSuccess now0 d))).1.layout = 0 ∧
    (d.saved_ip.length ≠ 0 → d.saved_port.length ≠ 0 → d.saved_auth.length ≠ 0 →
      (loopSuccessCheck now resp
        (pairEffect pairOutcome (displayWiFiSuccess now0 d))).2 = true) := by
  have hcond : (pairEffect pairOutcome
      (displayWiFiSuccess now0 d)).showing_success = true ∧
      1500 ≤ now - (pairEffect pairOutcome
        (displayWiFiSuccess now0 d)).success_start := by
    exact ⟨rfl, h⟩
  refine ⟨rfl, ?_, ?_, ?_, ?_⟩
  · simp only [loopSuccessCheck, if_pos hcond, displayMainScreen]
  · simp only [loopSuccessCheck, if_pos hcond, displayMainScreen]
  · simp only [loopSuccessCheck, if_pos hcond, displayMainScreen]
  · intro hip hport hauth
    have hb : ((pairEffect pairOutcome (displayWiFiSuccess now0 d)).saved_ip.length == 0
        || (pairEffect pairOutcome (displayWiFiSuccess now0 d)).saved_port.length == 0
        || (pairEffect pairOutcome (displayWiFiSuccess now0 d)).saved_auth.length == 0)
        = false := by
      simp only [pairEffect, displayWiFiSuccess, Bool.or_eq_false_iff,
        beq_eq_false_iff_ne]
      exact ⟨⟨hip, hport⟩, hauth⟩
    simp only [loopSuccessCheck, if_pos hcond, displayMainScreen,
      updateStatsFromServer]
    simp only [pairEffect, displayWiFiSuccess] at hb ⊢
    rw [hb]
    simp only [Bool.false_eq_true, if_false]
    by_cases h2 : (resp.httpCode == 200) = true
    · rcases hp : resp.parsed with _ | m <;> simp [h2, hp]
    · simp [h2]

/-- Witness for C8 on the concrete configured device, transition checked
500 ms after the 1.5 s interval elapsed. -/
theorem pairing_to_monitoring_witness :
    pairEffect false (displayWiFiSuccess 100 sampleDevice)
      = pairEffect true (displayWiFiSuccess 100 sampleDevice) ∧
    (loopSuccessCheck 2000 ⟨200, some sampleMetrics⟩
        (pairEffect false (displayWiFiSuccess 100 sampleDevice))).1.showing_success
      = false ∧
    (loopSuccessCheck 2000 ⟨200, some sampleMetrics⟩
        (pairEffect false (displayWiFiSuccess 100 sampleDevice))).1.stats_active
      = true ∧
    (loopSuccessCheck 2000 ⟨200, some sampleMetrics⟩
        (pairEffect false (displayWiFiSuccess 100 sampleDevice))).1.layout = 0 ∧
    (loopSuccessCheck 2000 ⟨200, some sampleMetrics⟩
        (pairEffect false (displayWiFiSuccess 100 sampleDevice))).2 = true := by
  have h := pairing_to_monitoring sampleDevice 100 2000 ⟨200, some sampleMetrics⟩
    false (by decide)
  exact ⟨h.1, h.2.1, h.2.2.1, h.2.2.2.1,
    h.2.2.2.2 (by decide) (by decide) (by decide)⟩

theorem touchStep_held (s : Device) (hs : s.touch_down = true) :
    touchStep true s = s := by
  simp [touchStep, hs]

theorem touchStep_iterate_held (m : Nat) (s : Device) (hs : s.touch_down = true) :
    (touchStep true)^[m] s = s := by
  induction m with
  | zero => rfl
  | succ k ih => rw [Function.iterate_succ_apply, touchStep_held s hs, ih]

/-- C9: layout toggling is edge-triggered.  Starting with the touch latch
released, any run of `n ≥ 1` consecutive loop iterations with the touch
held toggles the layout exactly once (on the press edge) and latches the
touch; an iteration with the touch released clears the latch, after which
a new press toggles again. -/
theorem touch_toggle_once (d : Device) (n : Nat) (h0 : d.touch_down = false)
    (hn : 1 ≤ n) :
    ((touchStep true)^[n] d).layout = (d.layout + 1) % LAYOUT_MAX ∧
    ((touchStep true)^[n] d).touch_down = true ∧
    (touchStep false ((touchStep true)^[n] d)).touch_down = false ∧
    (touchStep true (touchStep false ((touchStep true)^[n] d))).layout =
      (((touchStep true)^[n] d).layout + 1) % LAYOUT_MAX := by
  obtain ⟨m, rfl⟩ := Nat.exists_eq_add_of_le hn
  have hstep : touchStep true d =
      { d with touch_down := true, layout := (d.layout + 1) % LAYOUT_MAX } := by
    simp [touchStep, h0]
  have hit : (touchStep true)^[1 + m] d = touchStep true d := by
    rw [show 1 + m = m + 1 from by omega, Function.iterate_succ_apply]
    exact touchStep_iterate_held m _ (by rw [hstep])
  rw [hit, hstep]
  refine ⟨rfl, rfl, rfl, ?_⟩
  simp [touchStep]

/-- Witness for C9: three held iterations on the concrete device toggle
the layout once, and a release-then-press toggles it again. -/
theorem touch_toggle_once_witness :
    ((touchStep true)^[3] sampleDevice).layout
      = (sampleDevice.layout + 1) % LAYOUT_MAX ∧
    ((touchStep true)^[3] sampleDevice).touch_down = true ∧
    (touchStep false ((touchStep true)^[3] sampleDevice)).touch_down = false ∧
    (touchStep true (touchStep false ((touchStep true)^[3] sampleDevice))).layout =
      (((touchStep true)^[3] sampleDevice).layout + 1) % LAYOUT_MAX :=
  touch_toggle_once sampleDevice 3 rfl (by decide)

/-- C10: with fewer than two visible samples (not yet wrapped, cursor at 0
or 1), `drawLineChartArea` draws only the cleared area, border, title and
the three grid lines: no data pixel, no line segment, and no current-value
label are emitted. -/
theorem drawLineChartArea_few_points (x y w h : ℤ) (data : List ℚ)
    (size idx : Nat) (color : Nat) (title : String) (hidx : idx ≤ 1) :
    drawLineChartArea x y w h data size idx false color title =
      [DrawCmd.fillRect x y w h 0xFFFF, DrawCmd.drawRect x y w h 0x0000,
       DrawCmd.text (x + 4) (y + 2) title,
       DrawCmd.fastHLine (x + 1) (mapValueToY 25 (y + 15) (h - 20)) (w - 2) 0xBDF7,
       DrawCmd.fastHLine (x + 1) (mapValueToY 50 (y + 15) (h - 20)) (w - 2) 0xBDF7,
       DrawCmd.fastHLine (x + 1) (mapValueToY 75 (y + 15) (h - 20)) (w - 2) 0xBDF7] := by
  simp [drawLineChartArea, hidx]

/-- Witness for C10 at a concrete empty chart. -/
theorem drawLineChartArea_few_points_witness :
    drawLineChartArea 8 24 304 60 (List.replicate HIST_SIZE 0) HIST_SIZE 0
        false 31 "CPU" =
      [DrawCmd.fillRect 8 24 304 60 0xFFFF, DrawCmd.drawRect 8 24 304 60 0x0000,
       DrawCmd.text 12 26 "CPU",
       DrawCmd.fastHLine 9 (mapValueToY 25 39 40) 302 0xBDF7,
       DrawCmd.fastHLine 9 (mapValueToY 50 39 40) 302 0xBDF7,
       DrawCmd.fastHLine 9 (mapValueToY 75 39 40) 302 0xBDF7] :=
  drawLineChartArea_few_points 8 24 304 60 (List.replicate HIST_SIZE 0)
    HIST_SIZE 0 31 "CPU" (by decide)
